import Mathlib

/-!
Verification of the Video Dataset Tool core (mainwindow.cpp): directory
scanner (`extractLargestNumberInDir`), save sequencer (`saveCurrentFrame`,
`recalcNextImageFromDir`), playback cursor (`openVideo`, `seekTo`,
`stepRelative`, `setPlaying`, `tick`) and the config store (`loadConfig`).

Modelling conventions:
* a directory is `Option (List String)`: `none` means the directory does not
  exist, `some files` lists the names of its (regular, readable) files;
* the decoder (`cv::VideoCapture`) is modelled exactly: it holds a position
  `capPos` and `frameCount` frames; `read` succeeds iff the position is a
  valid frame index, delivers the frame at that index and advances the
  position by one (this is the "exact decoder seek" assumption of the spec);
* a decoded frame buffer is `Option Int`: `none` is an empty `cv::Mat`,
  `some i` is the frame read at index `i`;
* machine doubles (`fps_`) are modelled as rationals, `static_cast<int>` of a
  positive quotient as `Int.floor`, and `QString::toInt` (32-bit) fails
  outside `[-2^31, 2^31-1]` and yields 0 on failure when its `ok` flag is
  ignored.
-/

namespace VideoTool

/-- One maximal run of decimal digits at a time, mirroring the global regex
match of `(\d+)` in `MainWindow::extractLargestNumberInDir`. `cur` is the
current run, reversed. -/
def digitRunsAux : List Char → List Char → List (List Char)
  | [], cur => if cur.isEmpty then [] else [cur.reverse]
  | c :: rest, cur =>
    if c.isDigit then digitRunsAux rest (c :: cur)
    else if cur.isEmpty then digitRunsAux rest []
    else cur.reverse :: digitRunsAux rest []

/-- All maximal runs of decimal digits of a string, in order. -/
def digitRuns (s : List Char) : List (List Char) := digitRunsAux s []

/-- Numeric value of a list of decimal digits. -/
def digitsVal (l : List Char) : Nat := l.foldl (fun a c => 10 * a + (c.toNat - 48)) 0

/-- `QString::toInt` applied to one captured digit run: the run is all
digits, so the parse succeeds exactly when the value fits in a C `int`. -/
def runToInt (l : List Char) : Option Nat :=
  if digitsVal l ≤ 2147483647 then some (digitsVal l) else none

/-- `QFileInfo::completeBaseName`: the file name up to (not including) the
last dot; the whole name when there is no dot. -/
def completeBaseName (l : List Char) : List Char :=
  if l.contains '.' then (((l.reverse).dropWhile (fun c => c != '.')).drop 1).reverse
  else l

/-- Suffix test on character lists. -/
def endsWithL (l suffix : List Char) : Bool :=
  (l.reverse.take suffix.length) == suffix.reverse

/-- The fixed name-filter allow-list `*.jpg *.jpeg *.png *.bmp` passed to
`QDir::entryInfoList`. -/
def hasImageExt (f : String) : Bool :=
  endsWithL f.data ".jpg".data || endsWithL f.data ".jpeg".data ||
  endsWithL f.data ".png".data || endsWithL f.data ".bmp".data

/-- The integers contributed by one file: every maximal digit run of its
complete base name that parses as a C `int`. -/
def runValues (f : String) : List Nat :=
  (digitRuns (completeBaseName f.data)).filterMap runToInt

/-- Inner loop of `MainWindow::extractLargestNumberInDir` over the filtered
entry list: `maxNum` starts at 0 and takes the max with every parsed run. -/
def largestNumberInFiles (files : List String) : Nat :=
  (files.filter hasImageExt).foldl (fun acc f => (runValues f).foldl max acc) 0

/-- `MainWindow::extractLargestNumberInDir`: 0 when the directory does not
exist, otherwise the largest parsed digit run over the image files. -/
def extractLargestNumberInDir : Option (List String) → Nat
  | none => 0
  | some files => largestNumberInFiles files

/-- Spec-side Directory Scanner, following the spec's words: collect the
parsed value of every maximal digit run of every image file's base name into
one list and return its maximum, 0 if the list is empty (and 0 when the
directory does not exist). -/
def largestNumberSpec : Option (List String) → Nat
  | none => 0
  | some files => (((files.filter hasImageExt).map runValues).flatten).foldr max 0

theorem foldl_max_eq (l : List Nat) (a : Nat) : l.foldl max a = max a (l.foldr max 0) := by
  induction l generalizing a with
  | nil => simp
  | cons x xs ih =>
      simp only [List.foldl, List.foldr, ih (max a x)]
      omega

theorem foldr_max_append (xs ys : List Nat) :
    (xs ++ ys).foldr max 0 = max (xs.foldr max 0) (ys.foldr max 0) := by
  induction xs with
  | nil => simp
  | cons x xs ih =>
      simp only [List.cons_append, List.foldr_cons, ih]
      omega

theorem scan_foldl_eq (files : List String) (a : Nat) :
    files.foldl (fun acc f => (runValues f).foldl max acc) a
      = max a (((files.map runValues).flatten).foldr max 0) := by
  induction files generalizing a with
  | nil => simp
  | cons f fs ih =>
      rw [List.foldl_cons, ih, foldl_max_eq, List.map_cons, List.flatten_cons,
        foldr_max_append]
      omega

/-- C2: `largestNumber(dirPath)` returns 0 when the directory does not
exist; otherwise, over files with image extensions, it extracts every
maximal run of decimal digits of each base name, parses each run as an
integer, and returns the maximum over all files and runs (0 when there is
none); on {frame3.png, img_10_v2.png, x.png} it returns 10. -/
theorem c2_directory_scanner :
    (∀ d : Option (List String), extractLargestNumberInDir d = largestNumberSpec d) ∧
    extractLargestNumberInDir none = 0 ∧
    extractLargestNumberInDir (some ["frame3.png", "img_10_v2.png", "x.png"]) = 10 := by
  refine ⟨?_, rfl, by decide⟩
  intro d
  cases d with
  | none => rfl
  | some files =>
      show largestNumberInFiles files = _
      simp [largestNumberInFiles, largestNumberSpec, scan_foldl_eq]

/-- The mutable state of `MainWindow` that the core operations touch:
decoder (`cap_`), playback cursor, timer, slider, save target and the three
persisted config fields. `saveDir` is the contents of the save directory on
disk (`none`: it does not exist). -/
structure MWState where
  capOpened : Bool
  capPos : Int
  frameCount : Int
  fps : ℚ
  currentFrameIndex : Int
  currentFrame : Option Int
  playing : Bool
  timerRunning : Bool
  timerInterval : Int
  sliderValue : Int
  sliderHeld : Bool
  lastVideoPath : String
  saveDirPath : String
  nextImageIndex : Int
  saveDir : Option (List String)
  deriving DecidableEq

/-- `MainWindow::updateTimerFromFPS`:
`static_cast<int>(1000.0 / std::max(1.0, fps_))`, i.e. the floor of the
positive quotient after clamping fps below 1 up to 1. -/
def intervalMs (fps : ℚ) : Int := ⌊(1000 : ℚ) / max 1 fps⌋

/-- `std::clamp(frameIndex, 0, std::max(0, frameCount_ - 1))` as used in
`MainWindow::seekTo`. -/
def clampIndex (t fc : Int) : Int := min (max t 0) (max 0 (fc - 1))

/-- `MainWindow::setPlaying`: records the flag and starts or stops the
playback timer; note the source does not check that a video is open here. -/
def setPlaying (b : Bool) (s : MWState) : MWState :=
  { s with playing := b, timerRunning := b }

/-- `MainWindow::seekTo`: no-op when the decoder is closed; clamps the
target, positions the decoder there and reads one frame. With the exact
decoder model the read succeeds iff the clamped index addresses a frame, in
which case the reported position is index + 1, so `currentFrameIndex_`
becomes the clamped index and the frame is stored; the slider is only moved
when not held. On read failure frame and index stay unchanged. -/
def seekTo (t : Int) (s : MWState) : MWState :=
  if s.capOpened = false then s
  else if clampIndex t s.frameCount < s.frameCount then
    { s with capPos := clampIndex t s.frameCount + 1,
             currentFrameIndex := clampIndex t s.frameCount,
             currentFrame := some (clampIndex t s.frameCount),
             sliderValue := if s.sliderHeld then s.sliderValue
                            else clampIndex t s.frameCount }
  else { s with capPos := clampIndex t s.frameCount }

/-- `MainWindow::stepRelative`: seek to `currentFrameIndex_ + deltaFrames`. -/
def stepRelative (d : Int) (s : MWState) : MWState :=
  seekTo (s.currentFrameIndex + d) s

/-- `MainWindow::on_playPauseBtn_clicked`: toggles playback if a video is
open. -/
def playPauseClicked (s : MWState) : MWState :=
  if s.capOpened = false then s else setPlaying (!s.playing) s

/-- `MainWindow::tick`: one timer tick. Reads the next sequential frame; on
end of stream (read fails) forces pause, otherwise stores the frame, sets
`currentFrameIndex_` to the decoder position minus one, and updates the
slider when not held. -/
def tick (s : MWState) : MWState :=
  if s.capOpened = false then s
  else if s.capPos < s.frameCount then
    { s with capPos := s.capPos + 1, currentFrameIndex := s.capPos,
             currentFrame := some s.capPos,
             sliderValue := if s.sliderHeld then s.sliderValue else s.capPos }
  else setPlaying false s

/-- Outcome of `MainWindow::openVideo` as seen by the user. -/
inductive OpenOutcome
  | openFailed
  | openedOk
  deriving DecidableEq

/-- `MainWindow::openVideo`: releases any prior decoder, attempts to open.
`ok` is the decoder's answer, `fpsR` and `fcR` its reported fps and frame
count. On failure a warning is shown and the function returns with the
decoder closed — frame, index, playing state and timer untouched. On
success fps (defaulted to 30 when reported ≤ 0), frame count and index 0
are stored, the timer interval is derived, and frame 0 is shown via
`seekTo(0)`; the playing flag and the running timer are not touched (the
`setPlaying(false)` call in the source is commented out). -/
def openVideo (ok : Bool) (fpsR : ℚ) (fcR : Int) (s : MWState) : OpenOutcome × MWState :=
  if ok = false then (OpenOutcome.openFailed, { s with capOpened := false })
  else
    let fps := if fpsR ≤ 0 then (30 : ℚ) else fpsR
    let s1 := { s with capOpened := true, capPos := 0, fps := fps, frameCount := fcR,
                       currentFrameIndex := 0, timerInterval := intervalMs fps }
    (OpenOutcome.openedOk, seekTo 0 s1)

/-- Decimal digits of a natural number, most significant first (fueled). -/
def natDecAux : Nat → Nat → List Char
  | 0, _ => []
  | fuel + 1, n =>
    if n < 10 then [Char.ofNat (48 + n)]
    else natDecAux fuel (n / 10) ++ [Char.ofNat (48 + n % 10)]

/-- Decimal rendering of a natural number. -/
def natDec (n : Nat) : String := String.mk (natDecAux (n + 1) n)

/-- `QString("image_%1.png").arg(n, 4, 10, '0')`: decimal, zero-padded to
width 4 (wider numbers render unpadded). -/
def pad4 (n : Nat) : String :=
  String.mk (List.replicate (4 - (natDec n).data.length) '0' ++ (natDec n).data)

/-- Outcome of `MainWindow::saveCurrentFrame` as seen by the user:
a silent return (empty frame), the two message boxes, or the status-bar
confirmation carrying the saved file name. -/
inductive SaveOutcome
  | silentNoFrame
  | noDirectorySelected
  | writeFailed
  | saved (filename : String)
  deriving DecidableEq

/-- `MainWindow::saveCurrentFrame`. Returns silently when no frame is
decoded; shows the `NoDirectorySelected` box when no directory is chosen.
Otherwise creates the directory if absent (`mkpath`), rescans it
(`recalcNextImageFromDir`: nextImageIndex_ = largest + 1), builds the file
name `image_<pad4 next>.png` and writes the PNG (`writeOk` is the
`cv::imwrite` result). On failure the warning box is shown and the counter
keeps the rescanned value; on success the file appears in the directory and
the counter is incremented. -/
def saveCurrentFrame (writeOk : Bool) (s : MWState) : SaveOutcome × MWState :=
  if s.currentFrame.isNone then (SaveOutcome.silentNoFrame, s)
  else if s.saveDirPath = "" then (SaveOutcome.noDirectorySelected, s)
  else
    let files0 : List String := (s.saveDir).getD []
    let next : Nat := largestNumberInFiles files0 + 1
    let filename : String := "image_" ++ pad4 next ++ ".png"
    if writeOk then
      (SaveOutcome.saved filename,
       { s with saveDir := some (files0 ++ [filename]),
                nextImageIndex := (next : Int) + 1 })
    else
      (SaveOutcome.writeFailed, { s with saveDir := some files0,
                                         nextImageIndex := (next : Int) })

/-- `QString::trimmed` (ASCII whitespace). -/
def trimQ (s : String) : String :=
  String.mk (((s.data.dropWhile Char.isWhitespace).reverse.dropWhile Char.isWhitespace).reverse)

/-- All-digit parse of a nonempty character list. -/
def parseDigits : List Char → Option Nat
  | [] => none
  | l => if l.all Char.isDigit then some (digitsVal l) else none

/-- `QString::toInt` on a trimmed value: optional sign, decimal digits,
whole string, 32-bit range; `none` models `ok == false` (the source ignores
`ok`, so a failed parse yields 0). -/
def toIntQ (s : String) : Option Int :=
  match s.data with
  | '+' :: rest =>
      match parseDigits rest with
      | some v => if v ≤ 2147483647 then some (v : Int) else none
      | none => none
  | '-' :: rest =>
      match parseDigits rest with
      | some v => if v ≤ 2147483648 then some (-(v : Int)) else none
      | none => none
  | l =>
      match parseDigits l with
      | some v => if v ≤ 2147483647 then some (v : Int) else none
      | none => none

/-- One line of `MainWindow::loadConfig`: trim, skip blank and `#` lines,
skip lines whose first `=` is missing or at position 0, otherwise split at
the first `=`, trim key and value, and apply the recognized keys. For
`next_image` the source assigns `val.toInt()` without checking the ok flag,
so a malformed value stores 0. -/
def processLine (line : String) (s : MWState) : MWState :=
  let t := trimQ line
  if t.data.isEmpty then s
  else if t.data.head? = some '#' then s
  else
    match t.data.findIdx? (· = '=') with
    | none => s
    | some 0 => s
    | some i =>
        let key := trimQ (String.mk (t.data.take i))
        let val := trimQ (String.mk (t.data.drop (i + 1)))
        if key = "last_video" then { s with lastVideoPath := val }
        else if key = "save_dir" then { s with saveDirPath := val }
        else if key = "next_image" then { s with nextImageIndex := (toIntQ val).getD 0 }
        else s

/-- `MainWindow::loadConfig`: no-op when the file is absent (or unreadable),
otherwise processes each line in order. -/
def loadConfig (file : Option (List String)) (s : MWState) : MWState :=
  match file with
  | none => s
  | some lines => lines.foldl (fun st l => processLine l st) s

/-- A concrete baseline state: nothing opened, nothing selected, defaults as
after construction with an absent config file. -/
def st0 : MWState :=
  { capOpened := false, capPos := 0, frameCount := 0, fps := 30,
    currentFrameIndex := 0, currentFrame := none, playing := false,
    timerRunning := false, timerInterval := 33, sliderValue := 0,
    sliderHeld := false, lastVideoPath := "", saveDirPath := "",
    nextImageIndex := 1, saveDir := none }

theorem isNone_false_of_ne_none {o : Option Int} (h : o ≠ none) : o.isNone = false := by
  cases hc : o with
  | none => exact absurd hc h
  | some v => rfl

/-- One successful save from a state with a decoded frame, a selected
directory and an existing directory listing `fs`. -/
theorem save_step (s : MWState) (fs : List String)
    (hf : s.currentFrame ≠ none) (hd : ¬ s.saveDirPath = "") (hdir : s.saveDir = some fs) :
    saveCurrentFrame true s =
      (SaveOutcome.saved ("image_" ++ pad4 (largestNumberInFiles fs + 1) ++ ".png"),
       { s with
           saveDir := some (fs ++ ["image_" ++ pad4 (largestNumberInFiles fs + 1) ++ ".png"]),
           nextImageIndex := ((largestNumberInFiles fs + 1 : Nat) : Int) + 1 }) := by
  simp [saveCurrentFrame, isNone_false_of_ne_none hf, hd, hdir]

/-- C10: when no frame has been decoded yet (the current-frame buffer is
empty), saveCurrentFrame returns silently: no file is written, no counter
changes, no user-visible notice appears — and since this check precedes the
save-directory check, no NoDirectorySelected notice is shown even when no
directory is selected. -/
theorem c10_save_without_frame_silent (w : Bool) (s : MWState)
    (h : s.currentFrame = none) :
    saveCurrentFrame w s = (SaveOutcome.silentNoFrame, s) := by
  simp [saveCurrentFrame, h]

theorem c10_witness :
    st0.currentFrame = none ∧
      saveCurrentFrame true st0 = (SaveOutcome.silentNoFrame, st0) :=
  ⟨rfl, c10_save_without_frame_silent true st0 rfl⟩

/-- C4 counterexample: invoking save() with no save directory selected but
also no decoded frame does not report NoDirectorySelected — the source
returns silently from the empty-frame check first, so the claim's "reported
to the user" part fails at this input. -/
theorem c4_counterexample :
    (saveCurrentFrame true st0).1 = SaveOutcome.silentNoFrame ∧
      (saveCurrentFrame true st0).1 ≠ SaveOutcome.noDirectorySelected := by
  exact ⟨rfl, by decide⟩

/-- C4 (amended): for every invocation of save() with a decoded current
frame while no save directory is selected, the operation fails with
NoDirectorySelected reported to the user, creates no file, and mutates no
state. (The original claim, quantified over all invocations with an empty
dirPath, fails when no frame is decoded: that case returns silently.) -/
theorem c4_no_directory_selected (w : Bool) (s : MWState)
    (hf : s.currentFrame ≠ none) (hd : s.saveDirPath = "") :
    saveCurrentFrame w s = (SaveOutcome.noDirectorySelected, s) := by
  simp [saveCurrentFrame, isNone_false_of_ne_none hf, hd]

def st4 : MWState := { st0 with currentFrame := some 0 }

theorem c4_witness :
    st4.currentFrame ≠ none ∧ st4.saveDirPath = "" ∧
      saveCurrentFrame true st4 = (SaveOutcome.noDirectorySelected, st4) :=
  ⟨by decide, rfl, c4_no_directory_selected true st4 (by decide) rfl⟩

/-- C1: for every save with a non-empty save directory selected and a
decoded current frame, save() first rescans the directory (nextIndex =
largest embedded number + 1), writes the frame as
image_<nextIndex zero-padded to width 4>.png, and on success increments
nextIndex by exactly 1; starting from an empty directory, three consecutive
saves produce image_0001.png, image_0002.png, image_0003.png in order and
leave nextIndex = 4. -/
theorem c1_save_sequencer (s : MWState) (fs : List String)
    (hf : s.currentFrame ≠ none) (hd : s.saveDirPath ≠ "") (hdir : s.saveDir = some fs) :
    ((saveCurrentFrame true s).1
        = SaveOutcome.saved ("image_" ++ pad4 (largestNumberInFiles fs + 1) ++ ".png") ∧
      (saveCurrentFrame true s).2.nextImageIndex
        = ((largestNumberInFiles fs + 1 : Nat) : Int) + 1 ∧
      (saveCurrentFrame true s).2.saveDir
        = some (fs ++ ["image_" ++ pad4 (largestNumberInFiles fs + 1) ++ ".png"])) ∧
    (fs = [] →
      (saveCurrentFrame true s).1 = SaveOutcome.saved "image_0001.png" ∧
      (saveCurrentFrame true (saveCurrentFrame true s).2).1
        = SaveOutcome.saved "image_0002.png" ∧
      (saveCurrentFrame true (saveCurrentFrame true (saveCurrentFrame true s).2).2).1
        = SaveOutcome.saved "image_0003.png" ∧
      (saveCurrentFrame true (saveCurrentFrame true (saveCurrentFrame true s).2).2).2.nextImageIndex
        = 4) := by
  have hstep := save_step s fs hf hd hdir
  refine ⟨⟨by rw [hstep], by rw [hstep], by rw [hstep]⟩, ?_⟩
  rintro rfl
  have h1 : saveCurrentFrame true s
      = (SaveOutcome.saved "image_0001.png",
         { s with saveDir := some ["image_0001.png"], nextImageIndex := 2 }) := by
    rw [hstep]
    norm_num [show largestNumberInFiles [] = 0 from by decide,
      show ("image_" ++ pad4 (0 + 1) ++ ".png" : String) = "image_0001.png" from by decide]
  have h2 : saveCurrentFrame true
        { s with saveDir := some ["image_0001.png"], nextImageIndex := 2 }
      = (SaveOutcome.saved "image_0002.png",
         { s with saveDir := some ["image_0001.png", "image_0002.png"],
                  nextImageIndex := 3 }) := by
    rw [save_step _ ["image_0001.png"] (by simpa using hf) (by simpa using hd) rfl]
    norm_num [show largestNumberInFiles ["image_0001.png"] = 1 from by decide,
      show ("image_" ++ pad4 (1 + 1) ++ ".png" : String) = "image_0002.png" from by decide]
  have h3 : saveCurrentFrame true
        { s with saveDir := some ["image_0001.png", "image_0002.png"],
                 nextImageIndex := 3 }
      = (SaveOutcome.saved "image_0003.png",
         { s with saveDir := some ["image_0001.png", "image_0002.png", "image_0003.png"],
                  nextImageIndex := 4 }) := by
    rw [save_step _ ["image_0001.png", "image_0002.png"] (by simpa using hf)
      (by simpa using hd) rfl]
    norm_num [show largestNumberInFiles ["image_0001.png", "image_0002.png"] = 2 from by decide,
      show ("image_" ++ pad4 (2 + 1) ++ ".png" : String) = "image_0003.png" from by decide]
  rw [h1]
  exact ⟨rfl, by rw [h2], by rw [h2, h3], by rw [h2, h3]⟩

def stSave : MWState :=
  { st0 with currentFrame := some 0, saveDirPath := "/out", saveDir := some [] }

theorem c1_witness :
    stSave.currentFrame ≠ none ∧ stSave.saveDirPath ≠ "" ∧ stSave.saveDir = some [] ∧
      ((saveCurrentFrame true stSave).1 = SaveOutcome.saved "image_0001.png" ∧
        (saveCurrentFrame true (saveCurrentFrame true stSave).2).1
          = SaveOutcome.saved "image_0002.png" ∧
        (saveCurrentFrame true
            (saveCurrentFrame true (saveCurrentFrame true stSave).2).2).1
          = SaveOutcome.saved "image_0003.png" ∧
        (saveCurrentFrame true
            (saveCurrentFrame true (saveCurrentFrame true stSave).2).2).2.nextImageIndex
          = 4) :=
  ⟨by decide, by decide, rfl,
    (c1_save_sequencer stSave [] (by decide) (by decide) rfl).2 rfl⟩

/-- C8: stepRelative(delta) is equivalent to
seekTo(currentFrameIndex + delta); seekTo clamps its target to
[0, frameCount-1] (to 0 when frameCount = 0); with exact decoder seeks,
stepRelative(+1) at index i < frameCount-1 yields i+1, stepRelative(+1) at
the last index leaves the index unchanged, and stepRelative(-1) at index 0
leaves it at 0. -/
theorem c8_step_relative_seek_clamp (s : MWState) (d t i : Int) :
    (stepRelative d s = seekTo (s.currentFrameIndex + d) s) ∧
    (0 ≤ clampIndex t s.frameCount ∧
      clampIndex t s.frameCount ≤ max 0 (s.frameCount - 1) ∧
      (s.frameCount = 0 → clampIndex t s.frameCount = 0)) ∧
    (s.capOpened = true → s.currentFrameIndex = i → 0 ≤ i → i < s.frameCount - 1 →
      (stepRelative 1 s).currentFrameIndex = i + 1) ∧
    (s.capOpened = true → 0 < s.frameCount → s.currentFrameIndex = s.frameCount - 1 →
      (stepRelative 1 s).currentFrameIndex = s.currentFrameIndex) ∧
    (s.capOpened = true → 0 < s.frameCount → s.currentFrameIndex = 0 →
      (stepRelative (-1) s).currentFrameIndex = 0) := by
  refine ⟨rfl, by simp only [clampIndex]; omega, ?_, ?_, ?_⟩
  · intro hop hi h0 hlt
    have hc : clampIndex (s.currentFrameIndex + 1) s.frameCount = i + 1 := by
      simp only [clampIndex, hi]; omega
    rw [stepRelative, seekTo, if_neg (by simp [hop]), hc,
      if_pos (by omega : i + 1 < s.frameCount)]
  · intro hop hfc hi
    have hc : clampIndex (s.currentFrameIndex + 1) s.frameCount = s.frameCount - 1 := by
      simp only [clampIndex, hi]; omega
    rw [stepRelative, seekTo, if_neg (by simp [hop]), hc,
      if_pos (by omega : s.frameCount - 1 < s.frameCount)]
    simpa using hi.symm
  · intro hop hfc hi
    have hc : clampIndex (s.currentFrameIndex + -1) s.frameCount = 0 := by
      simp only [clampIndex, hi]; omega
    rw [stepRelative, seekTo, if_neg (by simp [hop]), hc, if_pos hfc]

def st8 : MWState :=
  { st0 with capOpened := true, frameCount := 10, currentFrameIndex := 3,
             capPos := 4, currentFrame := some 3 }

theorem c8_witness : (stepRelative 1 st8).currentFrameIndex = 3 + 1 :=
  (c8_step_relative_seek_clamp st8 1 0 3).2.2.1 rfl rfl (by decide) (by decide)

/-- C7 counterexample: on a session opened on a 0-frame stream, clicking
play/pause does set isPlaying to true (the handler only checks that the
decoder is open), refuting "isPlaying can never become true". -/
theorem c7_counterexample :
    (playPauseClicked { st0 with capOpened := true, frameCount := 0 }).playing = true := by
  decide

/-- C7 (amended): for every session opened on a 0-frame stream
(frameCount = 0, decoder position non-negative), every seek and step is a
no-op on the frame, index and play state (the target clamps to 0 and no
read succeeds); isPlaying can transiently become true via the play/pause
toggle, but a tick in any such state — in particular the first tick after
the toggle — forces it back to false. -/
theorem c7_empty_stream_behaviour (s : MWState) (t d : Int)
    (hop : s.capOpened = true) (hfc : s.frameCount = 0) (hpos : 0 ≤ s.capPos) :
    ((seekTo t s).currentFrameIndex = s.currentFrameIndex ∧
      (seekTo t s).currentFrame = s.currentFrame ∧
      (seekTo t s).playing = s.playing) ∧
    ((stepRelative d s).currentFrameIndex = s.currentFrameIndex ∧
      (stepRelative d s).currentFrame = s.currentFrame) ∧
    (tick s).playing = false ∧
    (tick (playPauseClicked s)).playing = false := by
  have hseek : ∀ u : Int, seekTo u s = { s with capPos := clampIndex u s.frameCount } := by
    intro u
    rw [seekTo, if_neg (by simp [hop]), if_neg (by simp only [clampIndex, hfc]; omega)]
  have htick : tick s = setPlaying false s := by
    rw [tick, if_neg (by simp [hop]), if_neg (by omega)]
  have htoggle : playPauseClicked s = setPlaying (!s.playing) s := by
    rw [playPauseClicked, if_neg (by simp [hop])]
  refine ⟨by rw [hseek]; exact ⟨rfl, rfl, rfl⟩,
    ⟨by rw [stepRelative, hseek], by rw [stepRelative, hseek]⟩,
    by rw [htick]; rfl, ?_⟩
  rw [htoggle, tick, if_neg (by simp [setPlaying, hop])]
  rw [if_neg (by simp only [setPlaying]; omega)]
  rfl

def st7 : MWState :=
  { st0 with capOpened := true, frameCount := 0, currentFrame := some 0,
             currentFrameIndex := 0 }

theorem c7_witness :
    st7.capOpened = true ∧ st7.frameCount = 0 ∧ (0 : Int) ≤ st7.capPos ∧
      (((seekTo 5 st7).currentFrameIndex = st7.currentFrameIndex ∧
          (seekTo 5 st7).currentFrame = st7.currentFrame ∧
          (seekTo 5 st7).playing = st7.playing) ∧
        ((stepRelative 1 st7).currentFrameIndex = st7.currentFrameIndex ∧
          (stepRelative 1 st7).currentFrame = st7.currentFrame) ∧
        (tick st7).playing = false ∧
        (tick (playPauseClicked st7)).playing = false) :=
  ⟨rfl, rfl, by decide, c7_empty_stream_behaviour st7 5 1 rfl rfl (by decide)⟩

theorem clampIndex_zero (fc : Int) : clampIndex 0 fc = 0 := by
  simp only [clampIndex]; omega

/-- C3 counterexample: opening a new video while Playing leaves the
playback flag (and the running timer) untouched — the source's
setPlaying(false) is commented out — so a successful open does not end in
the Paused state. -/
theorem c3_counterexample :
    ((openVideo true 30 20
        { st0 with capOpened := true, playing := true, timerRunning := true,
                   frameCount := 5, currentFrame := some 2, capPos := 3,
                   currentFrameIndex := 2 }).2.playing = true) ∧
    ((openVideo true 30 20
        { st0 with capOpened := true, playing := true, timerRunning := true,
                   frameCount := 5, currentFrame := some 2, capPos := 3,
                   currentFrameIndex := 2 }).2.timerRunning = true) := by
  constructor <;> rfl

/-- C3 (amended): for every successful open(path), currentFrameIndex is
reset to 0 and frame 0 is displayed via seekTo(0) (when the stream has at
least one frame); the play/pause state and the running timer are left
unchanged, so opening while Playing keeps playing against the new
session rather than forcing Paused. -/
theorem c3_open_success (s : MWState) (f : ℚ) (c : Int) :
    (openVideo true f c s).2.currentFrameIndex = 0 ∧
    (0 < c → (openVideo true f c s).2.currentFrame = some 0) ∧
    (openVideo true f c s).2.playing = s.playing ∧
    (openVideo true f c s).2.timerRunning = s.timerRunning := by
  rw [openVideo]
  simp only [Bool.true_eq_false, if_false]
  rw [seekTo, if_neg (by simp)]
  by_cases hc : 0 < c
  · rw [if_pos (by simpa [clampIndex_zero] using hc)]
    simp [clampIndex_zero]
  · rw [if_neg (by simpa [clampIndex_zero] using hc)]
    simp [clampIndex_zero, hc]

theorem c3_witness :
    ((openVideo true 30 20 st0).2.currentFrameIndex = 0 ∧
      (openVideo true 30 20 st0).2.currentFrame = some 0 ∧
      (openVideo true 30 20 st0).2.playing = st0.playing ∧
      (openVideo true 30 20 st0).2.timerRunning = st0.timerRunning) :=
  ⟨(c3_open_success st0 30 20).1, (c3_open_success st0 30 20).2.1 (by norm_num),
    (c3_open_success st0 30 20).2.2.1, (c3_open_success st0 30 20).2.2.2⟩

/-- C9 counterexample: a failed open after a session existed keeps the
previous session's decoded frame (and index) — the source clears neither —
refuting "no current frame retained". -/
theorem c9_counterexample :
    ((openVideo false 0 0
        { st0 with capOpened := true, currentFrame := some 5, currentFrameIndex := 5,
                   frameCount := 9 }).2.currentFrame = some 5) ∧
    ((openVideo false 0 0
        { st0 with capOpened := true, currentFrame := some 5, currentFrameIndex := 5,
                   frameCount := 9 }).2.currentFrame ≠ none) := by
  constructor
  · rfl
  · decide

/-- C9 (amended): for every open(path) that fails, the system reports an
error and ends with the decoder closed (Unopened), and the previous
session's frame and index are left untouched — whether or not a session
existed before. -/
theorem c9_open_failure (s : MWState) (f : ℚ) (c : Int) :
    (openVideo false f c s).1 = OpenOutcome.openFailed ∧
    (openVideo false f c s).2.capOpened = false ∧
    (openVideo false f c s).2.currentFrame = s.currentFrame ∧
    (openVideo false f c s).2.currentFrameIndex = s.currentFrameIndex := by
  rw [openVideo]
  exact ⟨rfl, rfl, rfl, rfl⟩

theorem seekTo_timerInterval (t : Int) (s : MWState) :
    (seekTo t s).timerInterval = s.timerInterval := by
  rw [seekTo]
  split
  · rfl
  · split <;> rfl

/-- C6 counterexample: opening a session with fps = 24 and starting
playback yields a tick period of 41 ms (C truncation of 1000/24), while
round(1000/24) = 42, so the claimed period formula fails at fps = 24. -/
theorem c6_counterexample :
    (setPlaying true (openVideo true 24 100 st0).2).timerRunning = true ∧
    (setPlaying true (openVideo true 24 100 st0).2).timerInterval = 41 ∧
    round ((1000 : ℚ) / 24) = 42 ∧
    (setPlaying true (openVideo true 24 100 st0).2).timerInterval
      ≠ round ((1000 : ℚ) / 24) := by
  have hint : intervalMs 24 = 41 := by
    rw [intervalMs, max_eq_right (by norm_num : (1 : ℚ) ≤ 24), Int.floor_eq_iff]
    norm_num
  have hround : round ((1000 : ℚ) / 24) = 42 := by
    rw [round_eq, Int.floor_eq_iff]
    norm_num
  have hopen : (setPlaying true (openVideo true 24 100 st0).2).timerInterval
      = intervalMs 24 := by
    show (openVideo true 24 100 st0).2.timerInterval = intervalMs 24
    simp only [openVideo, if_neg (by decide : ¬(true = false)), seekTo_timerInterval]
    rw [if_neg (by norm_num : ¬((24 : ℚ) ≤ 0))]
  exact ⟨rfl, by rw [hopen, hint], hround, by rw [hopen, hint, hround]; decide⟩

/-- C6 (amended): for every session opened with reported fps > 0,
setPlaying(true) starts the recurring tick and setPlaying(false) stops it;
the tick period in milliseconds is the integer truncation
⌊1000 / max(1, fps)⌋ (fps below 1 is clamped to 1), not round(1000 / fps). -/
theorem c6_set_playing_and_interval (s : MWState) (f : ℚ) (c : Int) (hf : 0 < f) :
    (setPlaying true (openVideo true f c s).2).timerRunning = true ∧
    (setPlaying true (openVideo true f c s).2).timerInterval
      = ⌊(1000 : ℚ) / max 1 f⌋ ∧
    (setPlaying false (openVideo true f c s).2).timerRunning = false := by
  have hopen : (openVideo true f c s).2.timerInterval = intervalMs f := by
    simp only [openVideo, if_neg (by decide : ¬(true = false)), seekTo_timerInterval]
    rw [if_neg (not_le.mpr hf)]
  exact ⟨rfl, by show (openVideo true f c s).2.timerInterval = _; rw [hopen, intervalMs], rfl⟩

theorem c6_witness :
    (0 : ℚ) < 24 ∧
      ((setPlaying true (openVideo true 24 100 st0).2).timerRunning = true ∧
        (setPlaying true (openVideo true 24 100 st0).2).timerInterval
          = ⌊(1000 : ℚ) / max 1 24⌋ ∧
        (setPlaying false (openVideo true 24 100 st0).2).timerRunning = false) :=
  ⟨by norm_num, c6_set_playing_and_interval st0 24 100 (by norm_num)⟩

def st5 : MWState := { st0 with nextImageIndex := 5 }

/-- C5 counterexample: loading a config whose next_image value is malformed
("abc") does not leave nextImageIndex at its prior value 5 — the source
assigns val.toInt() without checking the ok flag, which stores 0. -/
theorem c5_counterexample :
    (loadConfig (some ["last_video=v.mp4", "save_dir=/out", "next_image=abc"])
        st5).nextImageIndex = 0 ∧
    (loadConfig (some ["last_video=v.mp4", "save_dir=/out", "next_image=abc"])
        st5).nextImageIndex ≠ st5.nextImageIndex := by
  constructor <;> decide

theorem dropWhile_length_le (p : Char → Bool) (l : List Char) :
    (l.dropWhile p).length ≤ l.length := by
  induction l with
  | nil => simp
  | cons x xs ih =>
      rw [List.dropWhile_cons]
      by_cases hx : p x
      · rw [if_pos hx]
        simp only [List.length_cons]
        omega
      · rw [if_neg hx]

theorem dropWhile_length_eq {p : Char → Bool} (l : List Char)
    (h : (l.dropWhile p).length = l.length) : l.dropWhile p = l := by
  cases l with
  | nil => rfl
  | cons x xs =>
      rw [List.dropWhile_cons] at h ⊢
      by_cases hx : p x
      · rw [if_pos hx] at h
        have := dropWhile_length_le p xs
        simp at h
        omega
      · rw [if_neg hx]

/-- A string equal to its own trim drops nothing at either end. -/
theorem trim_self_parts (v : String) (hv : trimQ v = v) :
    v.data.dropWhile Char.isWhitespace = v.data ∧
    v.data.reverse.dropWhile Char.isWhitespace = v.data.reverse := by
  have hdata : ((v.data.dropWhile Char.isWhitespace).reverse.dropWhile
      Char.isWhitespace).reverse = v.data := congrArg String.data hv
  have hlen := congrArg List.length hdata
  rw [List.length_reverse] at hlen
  have le2 := dropWhile_length_le Char.isWhitespace
    (v.data.dropWhile Char.isWhitespace).reverse
  rw [List.length_reverse] at le2
  have le1 := dropWhile_length_le Char.isWhitespace v.data
  have e1 : v.data.dropWhile Char.isWhitespace = v.data :=
    dropWhile_length_eq v.data (by omega)
  rw [e1] at hdata
  have h3 := congrArg List.reverse hdata
  rw [List.reverse_reverse] at h3
  exact ⟨e1, h3⟩

theorem dropWhile_append_self (p : Char → Bool) (xs ys : List Char)
    (hx : xs.dropWhile p = xs) (hy : ys.dropWhile p = ys) :
    (xs ++ ys).dropWhile p = xs ++ ys := by
  cases xs with
  | nil => simpa using hy
  | cons x xs =>
      rw [List.dropWhile_cons] at hx
      by_cases hpx : p x
      · rw [if_pos hpx] at hx
        have h1 := dropWhile_length_le p xs
        have h2 := congrArg List.length hx
        simp at h2
        omega
      · rw [List.cons_append, List.dropWhile_cons, if_neg hpx]

/-- Trimming a line `P ++ v` whose prefix `P` has no whitespace at either
end and whose remainder `v` is already trimmed is the identity. -/
theorem trimQ_append (P v : String)
    (hP1 : P.data.dropWhile Char.isWhitespace = P.data)
    (hP2 : P.data.reverse.dropWhile Char.isWhitespace = P.data.reverse)
    (hv : trimQ v = v) :
    trimQ (P ++ v) = P ++ v := by
  obtain ⟨e1, e2⟩ := trim_self_parts v hv
  have hdata : (P ++ v).data = P.data ++ v.data := rfl
  have s1 : (P.data ++ v.data).dropWhile Char.isWhitespace = P.data ++ v.data :=
    dropWhile_append_self _ _ _ hP1 e1
  have s2 : (v.data.reverse ++ P.data.reverse).dropWhile Char.isWhitespace
      = v.data.reverse ++ P.data.reverse :=
    dropWhile_append_self _ _ _ e2 hP2
  rw [trimQ, hdata, s1, List.reverse_append, s2, List.reverse_append,
    List.reverse_reverse, List.reverse_reverse]
  rfl

/-- Effect of one `last_video=` line on the state, for every trimmed value. -/
theorem processLine_last_video (s : MWState) (v : String) (hv : trimQ v = v) :
    processLine ("last_video=" ++ v) s = { s with lastVideoPath := v } := by
  have ht : trimQ ("last_video=" ++ v) = "last_video=" ++ v :=
    trimQ_append "last_video=" v (by decide) (by decide) hv
  simp only [processLine]
  rw [ht]
  show ({ s with lastVideoPath := trimQ v } : MWState) = _
  rw [hv]

/-- Effect of one `save_dir=` line on the state, for every trimmed value. -/
theorem processLine_save_dir (s : MWState) (d : String) (hd : trimQ d = d) :
    processLine ("save_dir=" ++ d) s = { s with saveDirPath := d } := by
  have ht : trimQ ("save_dir=" ++ d) = "save_dir=" ++ d :=
    trimQ_append "save_dir=" d (by decide) (by decide) hd
  simp only [processLine]
  rw [ht]
  show ({ s with saveDirPath := trimQ d } : MWState) = _
  rw [hd]

/-- Effect of one `next_image=` line, for every trimmed value: the source
stores `val.toInt()` without checking the ok flag, i.e. 0 on a failed
parse. -/
theorem processLine_next_image (s : MWState) (b : String) (hb : trimQ b = b) :
    processLine ("next_image=" ++ b) s
      = { s with nextImageIndex := (toIntQ b).getD 0 } := by
  have ht : trimQ ("next_image=" ++ b) = "next_image=" ++ b :=
    trimQ_append "next_image=" b (by decide) (by decide) hb
  simp only [processLine]
  rw [ht]
  show ({ s with nextImageIndex := (toIntQ (trimQ b)).getD 0 } : MWState) = _
  rw [hb]

/-- C5 (amended): for every config file (in the written shape: comment
header, then last_video, save_dir, next_image) whose next_image value is
not a well-formed integer — any prior state, any trimmed values, any
malformed value — load() still applies last_video and save_dir, but
nextImageIndex does not retain its prior value: it is set to 0, the failure
value of the unchecked integer conversion. -/
theorem c5_malformed_next_image (s : MWState) (v d b : String)
    (hv : trimQ v = v) (hd : trimQ d = d) (hb : trimQ b = b)
    (hno : toIntQ b = none) :
    loadConfig (some ["# Simple config for Video Dataset Preparation Tool",
        "last_video=" ++ v, "save_dir=" ++ d, "next_image=" ++ b]) s
      = { s with lastVideoPath := v, saveDirPath := d, nextImageIndex := 0 } := by
  simp only [loadConfig, List.foldl_cons, List.foldl_nil]
  rw [show processLine "# Simple config for Video Dataset Preparation Tool" s = s
      from rfl,
    processLine_last_video s v hv, processLine_save_dir _ d hd,
    processLine_next_image _ b hb, hno]
  rfl

theorem c5_witness :
    trimQ "v.mp4" = "v.mp4" ∧ trimQ "/out" = "/out" ∧ trimQ "abc" = "abc" ∧
      toIntQ "abc" = none ∧
      loadConfig (some ["# Simple config for Video Dataset Preparation Tool",
          "last_video=" ++ "v.mp4", "save_dir=" ++ "/out", "next_image=" ++ "abc"]) st5
        = { st5 with lastVideoPath := "v.mp4", saveDirPath := "/out",
                     nextImageIndex := 0 } :=
  ⟨rfl, rfl, rfl, rfl,
    c5_malformed_next_image st5 "v.mp4" "/out" "abc" rfl rfl rfl rfl⟩

end VideoTool
